import Mathlib

/-!
Shallow embedding of the YunoB payment-and-entitlement core.

The repository contains two payment schemas side by side:
* a flat one-time flow over tables `users` / `payments`
  (src/routes/paymentFlow.js and the admin router src/unnamed/part_000), and
* a plan-based flow over `payment_submissions` / `user_trials` /
  `user_subscriptions` / `subscription_plans`
  (src/routes/subscriptionRoute.js, src/routes/adminSubscriptionRoute.js).

Timestamps are modelled as natural numbers counted in days (the source adds
whole days via `Date.setDate`); monetary amounts are integers in cents
(the columns are `DECIMAL(10,2)`).  JavaScript falsiness of request-body
fields (`!amount`, `!transaction_id`, ...) is modelled by `Option` values
together with the zero / empty-string checks below.
-/

namespace YunoB

/-- Review status of a payment row (the `status` column of `payments`
and `payment_submissions`). -/
inductive PayStatus where
  | pending
  | approved
  | rejected
deriving DecidableEq, Repr

/-- Status of a `user_subscriptions` row. -/
inductive SubStatus where
  | active
  | inactive
  | cancelled
deriving DecidableEq, Repr

/-- One row of the `users` table of the one-time payment flow
(`clerk_user_id`, `is_pro`, `pro_since`). -/
structure UserRow where
  clerkUserId : String
  isPro : Bool
  proSince : Option Nat
deriving DecidableEq, Repr

/-- One row of the `payments` table
(src/routes/paymentFlow.js, src/unnamed/part_000). -/
structure Payment where
  id : Nat
  clerkUserId : String
  amount : Int
  transactionId : String
  status : PayStatus
  adminId : Option String
  rejectionReason : Option String
  createdAt : Nat
  processedAt : Option Nat
deriving DecidableEq, Repr

/-- One row of `user_trials` (src/config/db.js; `user_id` is UNIQUE). -/
structure Trial where
  userId : String
  trialStartDate : Nat
  trialEndDate : Nat
  isActive : Bool
deriving DecidableEq, Repr

/-- One row of `subscription_plans` (src/config/db.js). -/
structure Plan where
  id : Nat
  name : String
  description : String
  price : Int
  durationDays : Nat
  isActive : Bool
deriving DecidableEq, Repr

/-- One row of `payment_submissions` (src/config/db.js). -/
structure Submission where
  id : Nat
  userId : String
  userEmail : String
  userName : String
  planId : Option Nat
  amount : Int
  paymentMethod : String
  transactionCode : String
  status : PayStatus
  submittedAt : Nat
  verifiedAt : Option Nat
  verifiedBy : Option String
  adminNotes : Option String
  rejectionReason : Option String
deriving DecidableEq, Repr

/-- One row of `user_subscriptions` (src/config/db.js). -/
structure Subscription where
  id : Nat
  userId : String
  planId : Option Nat
  status : SubStatus
  startDate : Nat
  endDate : Nat
  daysRemaining : Nat
deriving DecidableEq, Repr

/-- The durable state: all tables of both schemas, with the SERIAL
counters used for generated primary keys. -/
structure DB where
  users : List UserRow
  payments : List Payment
  submissions : List Submission
  trials : List Trial
  subscriptions : List Subscription
  plans : List Plan
  nextPaymentId : Nat
  nextSubmissionId : Nat
  nextSubscriptionId : Nat
  nextPlanId : Nat
deriving DecidableEq, Repr

/-- Fresh database: empty tables, SERIAL counters at 1. -/
def emptyDB : DB :=
  { users := [], payments := [], submissions := [], trials := [],
    subscriptions := [], plans := [], nextPaymentId := 1,
    nextSubmissionId := 1, nextSubscriptionId := 1, nextPlanId := 1 }

/-- JavaScript falsiness of an optional string request field:
absent or empty. -/
def strFalsy : Option String → Bool
  | none => true
  | some s => decide (s = "")

/-- JavaScript falsiness of an optional numeric request field:
absent or zero. -/
def intFalsy : Option Int → Bool
  | none => true
  | some n => decide (n = 0)

/-- JavaScript falsiness of an optional natural request field:
absent or zero. -/
def natFalsy : Option Nat → Bool
  | none => true
  | some n => decide (n = 0)

/-! ## Flat one-time payment flow (`users` / `payments`) -/

/-- `SELECT is_pro FROM users WHERE clerk_user_id = $uid LIMIT 1`,
read as in src/routes/paymentFlow.js lines 75-79: a missing row counts
as not Pro. -/
def userIsProFlat (db : DB) (uid : String) : Bool :=
  match db.users.find? (fun u => decide (u.clerkUserId = uid)) with
  | none => false
  | some u => u.isPro

/-- Existence check for a pending `payments` row of the user
(src/routes/paymentFlow.js lines 87-91). -/
def hasPendingFlat (db : DB) (uid : String) : Bool :=
  db.payments.any (fun p => decide (p.clerkUserId = uid) && decide (p.status = PayStatus.pending))

/-- Existence check for a `payments` row carrying the transaction id,
any status (src/routes/paymentFlow.js lines 101-103). -/
def txUsedFlat (db : DB) (tx : String) : Bool :=
  db.payments.any (fun p => decide (p.transactionId = tx))

/-- Outcome of `POST /api/payment-flow/submit-payment`. -/
inductive SubmitFlatResp where
  | missingFields
  | alreadyPro
  | pendingExists
  | duplicateTransaction
  | created (p : Payment)
deriving DecidableEq, Repr

/-- `POST /api/payment-flow/submit-payment`
(src/routes/paymentFlow.js lines 61-141). -/
def submitPaymentFlat (now : Nat) (uid : String) (amount : Option Int)
    (txId : Option String) (db : DB) : SubmitFlatResp × DB :=
  if intFalsy amount || strFalsy txId then (.missingFields, db)
  else if userIsProFlat db uid then (.alreadyPro, db)
  else if hasPendingFlat db uid then (.pendingExists, db)
  else if txUsedFlat db (txId.getD "") then (.duplicateTransaction, db)
  else
    let p : Payment :=
      { id := db.nextPaymentId, clerkUserId := uid, amount := amount.getD 0,
        transactionId := txId.getD "", status := PayStatus.pending,
        adminId := none, rejectionReason := none, createdAt := now,
        processedAt := none }
    (.created p,
     { db with payments := db.payments ++ [p],
               nextPaymentId := db.nextPaymentId + 1 })

/-- `INSERT INTO users ... ON CONFLICT (clerk_user_id) DO UPDATE SET
is_pro = true, pro_since = CURRENT_TIMESTAMP`
(src/unnamed/part_000 lines 104-112). -/
def upsertPro (users : List UserRow) (uid : String) (now : Nat) : List UserRow :=
  if users.any (fun u => decide (u.clerkUserId = uid)) then
    users.map (fun u =>
      if u.clerkUserId = uid then { u with isPro := true, proSince := some now } else u)
  else
    users ++ [{ clerkUserId := uid, isPro := true, proSince := some now }]

/-- Outcome of `POST /api/admin/subscription/payments/:paymentId/approve`. -/
inductive ApproveFlatResp where
  | notFound
  | alreadyApproved (userId : String)
  | invalidStatus (st : PayStatus)
  | approvedOk (userId : String)
deriving DecidableEq, Repr

/-- Row effect of the approval `UPDATE payments SET status = 'approved',
admin_id, processed_at WHERE id = $pid` (src/unnamed/part_000
lines 93-101). -/
def approveUpd (now : Nat) (adminId : String) (pid : Nat) (q : Payment) : Payment :=
  if q.id = pid then
    { q with status := PayStatus.approved, adminId := some adminId,
             processedAt := some now }
  else q

/-- `POST /api/admin/subscription/payments/:paymentId/approve`
(src/unnamed/part_000 lines 55-131): idempotent on `approved`,
rejects any other non-pending status, otherwise marks the payment
approved and upserts the user's Pro flag. -/
def approvePaymentFlat (now : Nat) (adminId : String) (pid : Nat) (db : DB) :
    ApproveFlatResp × DB :=
  match db.payments.find? (fun p => decide (p.id = pid)) with
  | none => (.notFound, db)
  | some p =>
    if p.status = PayStatus.approved then (.alreadyApproved p.clerkUserId, db)
    else if p.status ≠ PayStatus.pending then (.invalidStatus p.status, db)
    else
      (.approvedOk p.clerkUserId,
       { db with
           payments := db.payments.map (approveUpd now adminId pid),
           users := upsertPro db.users p.clerkUserId now })

/-- Outcome of `POST /api/admin/subscription/payments/:paymentId/reject`. -/
inductive RejectFlatResp where
  | missingReason
  | notFound
  | alreadyRejected
  | invalidStatus (st : PayStatus)
  | rejectedOk
deriving DecidableEq, Repr

/-- Row effect of the rejection `UPDATE payments SET status = 'rejected',
admin_id, rejection_reason, processed_at WHERE id = $pid`
(src/unnamed/part_000 lines 182-191). -/
def rejectUpd (now : Nat) (adminId : String) (pid : Nat) (reason : Option String)
    (q : Payment) : Payment :=
  if q.id = pid then
    { q with status := PayStatus.rejected, adminId := some adminId,
             rejectionReason := reason, processedAt := some now }
  else q

/-- `POST /api/admin/subscription/payments/:paymentId/reject`
(src/unnamed/part_000 lines 137-209). -/
def rejectPaymentFlat (now : Nat) (adminId : String) (pid : Nat)
    (reason : Option String) (db : DB) : RejectFlatResp × DB :=
  if strFalsy reason then (.missingReason, db)
  else
    match db.payments.find? (fun p => decide (p.id = pid)) with
    | none => (.notFound, db)
    | some p =>
      if p.status = PayStatus.rejected then (.alreadyRejected, db)
      else if p.status ≠ PayStatus.pending then (.invalidStatus p.status, db)
      else
        (.rejectedOk,
         { db with payments := db.payments.map (rejectUpd now adminId pid reason) })

/-! ## Plan-based flow (`payment_submissions` / `user_trials` /
`user_subscriptions` / `subscription_plans`) -/

/-- Existence check for a `user_trials` row of the user
(`user_id` is UNIQUE). -/
def hasTrial (db : DB) (uid : String) : Bool :=
  db.trials.any (fun t => decide (t.userId = uid))

/-- Outcome of `POST /api/subscription/start-trial`. -/
inductive StartTrialResp where
  | alreadyUsed
  | started (t : Trial)
deriving DecidableEq, Repr

/-- `POST /api/subscription/start-trial`
(src/routes/subscriptionRoute.js lines 109-148): fails when any trial
record exists, otherwise inserts a 7-day active trial. -/
def startTrial (now : Nat) (uid : String) (db : DB) : StartTrialResp × DB :=
  if hasTrial db uid then (.alreadyUsed, db)
  else
    let t : Trial :=
      { userId := uid, trialStartDate := now, trialEndDate := now + 7,
        isActive := true }
    (.started t, { db with trials := db.trials ++ [t] })

/-- `POST /api/subscription/skip-trial`
(src/routes/subscriptionRoute.js lines 151-191): upsert marking the
trial consumed with zero duration. -/
def skipTrial (now : Nat) (uid : String) (db : DB) : DB :=
  if hasTrial db uid then
    { db with trials := db.trials.map (fun t =>
        if t.userId = uid then
          { t with isActive := false, trialStartDate := now, trialEndDate := now }
        else t) }
  else
    { db with trials := db.trials ++
        [{ userId := uid, trialStartDate := now, trialEndDate := now,
           isActive := false }] }

/-- `SELECT * FROM subscription_plans WHERE id = $planId AND is_active = true`
(src/routes/subscriptionRoute.js lines 320-322). -/
def findActivePlan (db : DB) (planId : Nat) : Option Plan :=
  db.plans.find? (fun pl => decide (pl.id = planId) && pl.isActive)

/-- Trial-consumption upsert run after a plan-based submission
(src/routes/subscriptionRoute.js lines 358-365): `ON CONFLICT (user_id)
DO UPDATE SET is_active = false`, keeping existing dates via COALESCE. -/
def consumeTrial (now : Nat) (uid : String) (trials : List Trial) : List Trial :=
  if trials.any (fun t => decide (t.userId = uid)) then
    trials.map (fun t => if t.userId = uid then { t with isActive := false } else t)
  else
    trials ++ [{ userId := uid, trialStartDate := now, trialEndDate := now,
                 isActive := false }]

/-- Outcome of `POST /api/subscription/submit-payment`. -/
inductive SubmitSubResp where
  | missingFields
  | planNotFound
  | amountMismatch (price : Int)
  | created (s : Submission)
deriving DecidableEq, Repr

/-- `POST /api/subscription/submit-payment`
(src/routes/subscriptionRoute.js lines 300-380): field presence, active
plan lookup, exact price equality, then insert a pending submission and
mark the trial consumed.  Note: no duplicate-pending and no
transaction-code check is performed here. -/
def submitPaymentSub (now : Nat) (uid : String) (planId : Option Nat)
    (amount : Option Int) (method txCode email name : Option String)
    (db : DB) : SubmitSubResp × DB :=
  if natFalsy planId || intFalsy amount || strFalsy method || strFalsy txCode then
    (.missingFields, db)
  else
    match findActivePlan db (planId.getD 0) with
    | none => (.planNotFound, db)
    | some pl =>
      if amount.getD 0 ≠ pl.price then (.amountMismatch pl.price, db)
      else
        let s : Submission :=
          { id := db.nextSubmissionId, userId := uid,
            userEmail := if strFalsy email then "user@example.com" else email.getD "",
            userName := if strFalsy name then "User" else name.getD "",
            planId := planId, amount := amount.getD 0,
            paymentMethod := method.getD "", transactionCode := txCode.getD "",
            status := PayStatus.pending, submittedAt := now,
            verifiedAt := none, verifiedBy := none, adminNotes := none,
            rejectionReason := none }
        (.created s,
         { db with submissions := db.submissions ++ [s],
                   nextSubmissionId := db.nextSubmissionId + 1,
                   trials := consumeTrial now uid db.trials })

/-- `SELECT * FROM payment_submissions WHERE id = $pid AND status = 'pending'`
(src/routes/adminSubscriptionRoute.js lines 140-143). -/
def findPendingSubmission (db : DB) (pid : Nat) : Option Submission :=
  db.submissions.find? (fun s => decide (s.id = pid) && decide (s.status = PayStatus.pending))

/-- `SELECT duration_days FROM subscription_plans WHERE id = $planId`
(src/routes/adminSubscriptionRoute.js lines 149-152): no row matches a
NULL plan reference. -/
def planById (db : DB) (planId : Option Nat) : Option Plan :=
  planId.bind (fun plid => db.plans.find? (fun pl => decide (pl.id = plid)))

/-- Plan duration used on approval: `plan[0]?.duration_days || 30`
(src/routes/adminSubscriptionRoute.js line 153) — the default 30
applies when the plan reference resolves to no row (or a zero, falsy,
duration). -/
def planDurationOr30 (db : DB) (planId : Option Nat) : Nat :=
  match planById db planId with
  | none => 30
  | some pl => if pl.durationDays = 0 then 30 else pl.durationDays

/-- First write of the plan-based approval: `UPDATE payment_submissions
SET status = 'approved', verified_at, verified_by = 'admin',
admin_notes WHERE id = $pid`
(src/routes/adminSubscriptionRoute.js lines 159-167). -/
def approveSubW1 (now : Nat) (notes : Option String) (pid : Nat) (db : DB) : DB :=
  { db with submissions := db.submissions.map (fun q =>
      if q.id = pid then
        { q with status := PayStatus.approved, verifiedAt := some now,
                 verifiedBy := some "admin", adminNotes := some (notes.getD "") }
      else q) }

/-- Row effect of `UPDATE user_subscriptions SET status = 'inactive'
WHERE user_id = $uid AND status = 'active'`. -/
def deactivateUpd (uid : String) (sub : Subscription) : Subscription :=
  if sub.userId = uid ∧ sub.status = SubStatus.active then
    { sub with status := SubStatus.inactive }
  else sub

/-- Second write: deactivate any existing active subscription of the
user (src/routes/adminSubscriptionRoute.js lines 170-174). -/
def approveSubW2 (uid : String) (db : DB) : DB :=
  { db with subscriptions := db.subscriptions.map (deactivateUpd uid) }

/-- Third write: `INSERT INTO user_subscriptions (...) VALUES
(uid, plan, 'active', now, endDate, durationDays)`
(src/routes/adminSubscriptionRoute.js lines 177-188). -/
def approveSubW3 (now endDate dur : Nat) (s : Submission) (db : DB) : DB :=
  let sub : Subscription :=
    { id := db.nextSubscriptionId, userId := s.userId, planId := s.planId,
      status := SubStatus.active, startDate := now, endDate := endDate,
      daysRemaining := dur }
  { db with subscriptions := db.subscriptions ++ [sub],
            nextSubscriptionId := db.nextSubscriptionId + 1 }

/-- Outcome of `POST /api/admin/subscription/approve-payment/:paymentId`. -/
inductive ApproveSubResp where
  | notFoundPending
  | approvedOk (userId : String) (endDate : Nat)
deriving DecidableEq, Repr

/-- `POST /api/admin/subscription/approve-payment/:paymentId`
(src/routes/adminSubscriptionRoute.js lines 135-202): a payment found
only when still pending (any other status yields the 404 branch), then
the three writes above run in sequence with no wrapping transaction. -/
def approvePaymentSub (now : Nat) (pid : Nat) (notes : Option String) (db : DB) :
    ApproveSubResp × DB :=
  match findPendingSubmission db pid with
  | none => (.notFoundPending, db)
  | some s =>
    let dur := planDurationOr30 db s.planId
    (.approvedOk s.userId (now + dur),
     approveSubW3 now (now + dur) dur s (approveSubW2 s.userId (approveSubW1 now notes pid db)))

/-- The plan-based approval stopped after its first `k` writes: the
state reached when a later statement of the unwrapped three-statement
sequence fails (the source awaits each statement separately through the
HTTP SQL driver, so earlier statements stay committed). -/
def approvePaymentSubUpto (now : Nat) (pid : Nat) (notes : Option String)
    (k : Nat) (db : DB) : DB :=
  match findPendingSubmission db pid with
  | none => db
  | some s =>
    let dur := planDurationOr30 db s.planId
    let db1 := if 1 ≤ k then approveSubW1 now notes pid db else db
    let db2 := if 2 ≤ k then approveSubW2 s.userId db1 else db1
    if 3 ≤ k then approveSubW3 now (now + dur) dur s db2 else db2

/-- Outcome of `POST /api/admin/subscription/reject-payment/:paymentId`. -/
inductive RejectSubResp where
  | missingReason
  | notFoundPending
  | rejectedOk
deriving DecidableEq, Repr

/-- Row effect of `UPDATE payment_submissions SET status = 'rejected',
rejection_reason, verified_at, verified_by = 'admin' WHERE id = $pid
AND status = 'pending'` (src/routes/adminSubscriptionRoute.js
lines 213-222). -/
def rejectSubUpd (now : Nat) (pid : Nat) (reason : Option String)
    (q : Submission) : Submission :=
  if q.id = pid ∧ q.status = PayStatus.pending then
    { q with status := PayStatus.rejected, rejectionReason := reason,
             verifiedAt := some now, verifiedBy := some "admin" }
  else q

/-- `POST /api/admin/subscription/reject-payment/:paymentId`
(src/routes/adminSubscriptionRoute.js lines 205-237): requires a
truthy reason, then runs the update above; `RETURNING *` yields a 404
when no pending row carried the id. -/
def rejectPaymentSub (now : Nat) (pid : Nat) (reason : Option String) (db : DB) :
    RejectSubResp × DB :=
  if strFalsy reason then (.missingReason, db)
  else
    match findPendingSubmission db pid with
    | none => (.notFoundPending, db)
    | some _ =>
      (.rejectedOk,
       { db with submissions := db.submissions.map (rejectSubUpd now pid reason) })

/-- Outcome of `POST /api/admin/subscription/plans`. -/
inductive CreatePlanResp where
  | missingFields
  | created (pl : Plan)
deriving DecidableEq, Repr

/-- `POST /api/admin/subscription/plans`
(src/routes/adminSubscriptionRoute.js lines 301-335). -/
def createPlan (name descr : Option String) (price : Option Int)
    (durationDays : Option Nat) (isActive : Bool) (db : DB) :
    CreatePlanResp × DB :=
  if strFalsy name || intFalsy price || natFalsy durationDays then
    (.missingFields, db)
  else
    let pl : Plan :=
      { id := db.nextPlanId, name := name.getD "", description := descr.getD "",
        price := price.getD 0, durationDays := durationDays.getD 0,
        isActive := isActive }
    (.created pl, { db with plans := db.plans ++ [pl], nextPlanId := db.nextPlanId + 1 })

/-- Outcome of `POST /api/admin/subscription/cancel-subscription/:userId`. -/
inductive CancelSubResp where
  | notFoundActive
  | cancelled
deriving DecidableEq, Repr

/-- `POST /api/admin/subscription/cancel-subscription/:userId`
(src/routes/adminSubscriptionRoute.js lines 263-285). -/
def cancelSubscription (now : Nat) (uid : String) (db : DB) :
    CancelSubResp × DB :=
  if db.subscriptions.any (fun sub =>
      decide (sub.userId = uid) && decide (sub.status = SubStatus.active)) then
    (.cancelled,
     { db with subscriptions := db.subscriptions.map (fun sub =>
         if sub.userId = uid ∧ sub.status = SubStatus.active then
           { sub with status := SubStatus.cancelled, endDate := now }
         else sub) })
  else (.notFoundActive, db)

/-! ## Admin gates -/

/-- Admin gate of src/routes/adminSubscriptionRoute.js lines 9-15:
the `admin-token` header must be truthy and equal to the configured
token. -/
def requireAdminToken (adminToken : Option String) (envToken : String) : Bool :=
  match adminToken with
  | none => false
  | some t => !(decide (t = "")) && decide (t = envToken)

/-- Role data the identity provider returns for a caller
(src/unnamed/part_001 lines 84-90). -/
structure ClerkUser where
  publicRole : Option String
  privateIsAdmin : Option Bool
deriving DecidableEq, Repr

/-- Admin predicate of src/unnamed/part_001 lines 88-90. -/
def clerkIsAdmin (u : ClerkUser) : Bool :=
  decide (u.publicRole = some "admin") || decide (u.privateIsAdmin = some true)

/-- Admin gate of the `payment_submissions` admin router
(src/routes/paymentFlow.js, second module, lines 185-193): the source
hardcodes `const isAdmin = true` with a comment calling it temporary,
so the gate never consults the caller at all.  The argument records
whether the caller actually has the admin role; the body, like the
source, ignores it. -/
def requireAdminStub (_callerIsAdmin : Bool) : Bool :=
  let isAdmin := true
  if !isAdmin then false else true

/-! ## Mutating operations as a state machine -/

/-- One mutating request against the durable state: both variants of
submit / approve / reject, the trial transitions, plan creation and
subscription cancellation. -/
inductive Op where
  | submitFlat (now : Nat) (uid : String) (amount : Option Int) (tx : Option String)
  | approveFlat (now : Nat) (admin : String) (pid : Nat)
  | rejectFlat (now : Nat) (admin : String) (pid : Nat) (reason : Option String)
  | trialStart (now : Nat) (uid : String)
  | trialSkip (now : Nat) (uid : String)
  | submitSub (now : Nat) (uid : String) (planId : Option Nat) (amount : Option Int)
      (method tx email name : Option String)
  | approveSub (now : Nat) (pid : Nat) (notes : Option String)
  | rejectSub (now : Nat) (pid : Nat) (reason : Option String)
  | planCreate (name descr : Option String) (price : Option Int)
      (durationDays : Option Nat) (isActive : Bool)
  | subCancel (now : Nat) (uid : String)
deriving DecidableEq, Repr

/-- Effect of one mutating operation on the durable state. -/
def step : Op → DB → DB
  | .submitFlat now uid amt tx, db => (submitPaymentFlat now uid amt tx db).2
  | .approveFlat now admin pid, db => (approvePaymentFlat now admin pid db).2
  | .rejectFlat now admin pid reason, db => (rejectPaymentFlat now admin pid reason db).2
  | .trialStart now uid, db => (startTrial now uid db).2
  | .trialSkip now uid, db => skipTrial now uid db
  | .submitSub now uid planId amt method tx email name, db =>
      (submitPaymentSub now uid planId amt method tx email name db).2
  | .approveSub now pid notes, db => (approvePaymentSub now pid notes db).2
  | .rejectSub now pid reason, db => (rejectPaymentSub now pid reason db).2
  | .planCreate name descr price dur active, db =>
      (createPlan name descr price dur active db).2
  | .subCancel now uid, db => (cancelSubscription now uid db).2

/-- The state reached by running a sequence of mutating operations. -/
def runOps (ops : List Op) (db : DB) : DB :=
  ops.foldl (fun d o => step o d) db

/-- Every Pro flag is backed by an approved payment of the same user. -/
def proBacked (db : DB) : Prop :=
  ∀ u ∈ db.users, u.isPro = true →
    ∃ p ∈ db.payments, p.clerkUserId = u.clerkUserId ∧ p.status = PayStatus.approved

/-- Bookkeeping invariant of the `payments` SERIAL key: ids are below
the counter and pairwise distinct. -/
def payIdsOk (db : DB) : Prop :=
  (∀ p ∈ db.payments, p.id < db.nextPaymentId) ∧
  db.payments.Pairwise (fun a b => a.id ≠ b.id)

/-- Inductive invariant carried through every mutating operation. -/
def Inv (db : DB) : Prop := payIdsOk db ∧ proBacked db

/-! ## Concrete fixtures used to evaluate the operations -/

/-- Demonstration trace: a one-time payment is submitted and approved. -/
def c1demoOps : List Op :=
  [Op.submitFlat 0 "u1" (some 20000) (some "TX1"),
   Op.approveFlat 1 "a1" 1]

/-- A plan-based submission already reviewed and approved. -/
def c2subApproved : Submission :=
  { id := 1, userId := "u1", userEmail := "u1@x", userName := "U1",
    planId := some 1, amount := 20000, paymentMethod := "bank",
    transactionCode := "T1", status := PayStatus.approved, submittedAt := 0,
    verifiedAt := some 1, verifiedBy := some "admin", adminNotes := some "",
    rejectionReason := none }

/-- A plan-based submission already reviewed and rejected. -/
def c2subRejected : Submission :=
  { id := 2, userId := "u2", userEmail := "u2@x", userName := "U2",
    planId := some 1, amount := 20000, paymentMethod := "bank",
    transactionCode := "T2", status := PayStatus.rejected, submittedAt := 0,
    verifiedAt := some 1, verifiedBy := some "admin", adminNotes := none,
    rejectionReason := some "bad" }

/-- Ledger holding one approved and one rejected plan-based payment. -/
def c2db : DB :=
  { emptyDB with submissions := [c2subApproved, c2subRejected], nextSubmissionId := 3 }

/-- A one-time payment already approved. -/
def c2payApproved : Payment :=
  { id := 1, clerkUserId := "u1", amount := 20000, transactionId := "T1",
    status := PayStatus.approved, adminId := some "a1", rejectionReason := none,
    createdAt := 0, processedAt := some 1 }

/-- Flat ledger holding one approved payment and no plan-based rows. -/
def c2wdb : DB :=
  { emptyDB with payments := [c2payApproved], nextPaymentId := 2 }

/-- The default Premium plan row (src/config/db.js lines 152-162),
price in cents. -/
def premiumPlan : Plan :=
  { id := 1, name := "Premium Plan", description := "Premium", price := 20000,
    durationDays := 30, isActive := true }

/-- Fresh database holding only the Premium plan. -/
def c3db0 : DB := { emptyDB with plans := [premiumPlan], nextPlanId := 2 }

/-- Flat ledger where user u0 already submitted transaction TX1. -/
def c3wdb : DB :=
  { emptyDB with
      payments := [{ id := 1, clerkUserId := "u0", amount := 20000,
                     transactionId := "TX1", status := PayStatus.rejected,
                     adminId := some "a1", rejectionReason := some "bad",
                     createdAt := 0, processedAt := some 1 }],
      nextPaymentId := 2 }

/-- Fresh plan-based database for the duplicate-pending scenario. -/
def c4db0 : DB := { emptyDB with plans := [premiumPlan], nextPlanId := 2 }

/-- Flat ledger where user u1 already has a pending payment. -/
def c4wdb : DB :=
  { emptyDB with
      payments := [{ id := 1, clerkUserId := "u1", amount := 20000,
                     transactionId := "TX1", status := PayStatus.pending,
                     adminId := none, rejectionReason := none,
                     createdAt := 0, processedAt := none }],
      nextPaymentId := 2 }

/-- A pending plan-based submission awaiting review. -/
def c5subPending : Submission :=
  { id := 1, userId := "u1", userEmail := "u1@x", userName := "U1",
    planId := some 1, amount := 20000, paymentMethod := "bank",
    transactionCode := "T5", status := PayStatus.pending, submittedAt := 0,
    verifiedAt := none, verifiedBy := none, adminNotes := none,
    rejectionReason := none }

/-- Database holding one pending submission and the Premium plan. -/
def c5db : DB :=
  { emptyDB with
      submissions := [c5subPending], nextSubmissionId := 2,
      plans := [premiumPlan], nextPlanId := 2 }

/-- Plan-based database for the amount-mismatch scenario. -/
def c7db : DB := { emptyDB with plans := [premiumPlan], nextPlanId := 2 }

/-- A pending submission whose plan reference resolves to no plan row. -/
def c10subPending : Submission :=
  { id := 1, userId := "u1", userEmail := "u1@x", userName := "U1",
    planId := some 99, amount := 20000, paymentMethod := "bank",
    transactionCode := "T10", status := PayStatus.pending, submittedAt := 0,
    verifiedAt := none, verifiedBy := none, adminNotes := none,
    rejectionReason := none }

/-- Database holding the dangling-plan pending submission and no plans. -/
def c10db : DB :=
  { emptyDB with submissions := [c10subPending], nextSubmissionId := 2 }

/-- A pending one-time payment awaiting review. -/
def c9pay : Payment :=
  { id := 1, clerkUserId := "u1", amount := 20000, transactionId := "TX9",
    status := PayStatus.pending, adminId := none, rejectionReason := none,
    createdAt := 0, processedAt := none }

/-- A pending plan-based submission for the rejection scenario. -/
def c9sub : Submission :=
  { id := 1, userId := "u1", userEmail := "u1@x", userName := "U1",
    planId := some 1, amount := 20000, paymentMethod := "bank",
    transactionCode := "T9", status := PayStatus.pending, submittedAt := 0,
    verifiedAt := none, verifiedBy := none, adminNotes := none,
    rejectionReason := none }

/-- Database for the rejection scenario: one pending flat payment and
one pending plan-based submission, both with id 1. -/
def c9db : DB :=
  { emptyDB with
      payments := [c9pay], nextPaymentId := 2,
      submissions := [c9sub], nextSubmissionId := 2 }

theorem inv_emptyDB : Inv emptyDB := by
  refine ⟨⟨?_, ?_⟩, ?_⟩
  · intro p hp
    cases hp
  · exact List.Pairwise.nil
  · intro u hu
    cases hu

/-- Two payments of a pairwise-id-distinct ledger with the same id are
the same row. -/
theorem payment_eq_of_id_eq {l : List Payment} {q p : Payment}
    (hl : l.Pairwise (fun a b => a.id ≠ b.id))
    (hq : q ∈ l) (hp : p ∈ l) (hid : q.id = p.id) : q = p := by
  induction l with
  | nil => cases hq
  | cons a t ih =>
    rcases List.pairwise_cons.mp hl with ⟨hhead, htail⟩
    cases hq with
    | head =>
      cases hp with
      | head => rfl
      | tail _ hp' => exact absurd hid (hhead p hp')
    | tail _ hq' =>
      cases hp with
      | head => exact absurd hid.symm (hhead q hq')
      | tail _ hp' => exact ih htail hq' hp'

/-- Membership in the Pro upsert: either the row carries the upserted
user id, or it is an untouched row of the previous table. -/
theorem mem_upsertPro {users : List UserRow} {uid : String} {now : Nat}
    {u : UserRow} (hu : u ∈ upsertPro users uid now) :
    u.clerkUserId = uid ∨ u ∈ users := by
  unfold upsertPro at hu
  split at hu
  · rcases List.mem_map.mp hu with ⟨e, he, hfe⟩
    by_cases hcid : e.clerkUserId = uid
    · left
      rw [if_pos hcid] at hfe
      rw [← hfe]
      exact hcid
    · right
      rw [if_neg hcid] at hfe
      rw [← hfe]
      exact he
  · rcases List.mem_append.mp hu with h | h
    · right; exact h
    · left
      rcases List.mem_singleton.mp h with rfl
      rfl

/-- Operations that leave `users`, `payments` and the payment id
counter untouched preserve the invariant. -/
theorem inv_of_frame {db db' : DB} (hu : db'.users = db.users)
    (hp : db'.payments = db.payments) (hn : db'.nextPaymentId = db.nextPaymentId)
    (h : Inv db) : Inv db' := by
  obtain ⟨⟨hbound, hpair⟩, hpro⟩ := h
  refine ⟨⟨?_, ?_⟩, ?_⟩
  · rw [hp, hn]
    exact hbound
  · rw [hp]
    exact hpair
  · intro u huu hup
    rw [hu] at huu
    rw [hp]
    exact hpro u huu hup

theorem approveUpd_id (now : Nat) (admin : String) (pid : Nat) (q : Payment) :
    (approveUpd now admin pid q).id = q.id := by
  unfold approveUpd
  split <;> rfl

theorem approveUpd_clerkUserId (now : Nat) (admin : String) (pid : Nat) (q : Payment) :
    (approveUpd now admin pid q).clerkUserId = q.clerkUserId := by
  unfold approveUpd
  split <;> rfl

theorem approveUpd_keeps_approved (now : Nat) (admin : String) (pid : Nat)
    {q : Payment} (hq : q.status = PayStatus.approved) :
    (approveUpd now admin pid q).status = PayStatus.approved := by
  unfold approveUpd
  split
  · rfl
  · exact hq

theorem rejectUpd_id (now : Nat) (admin : String) (pid : Nat) (reason : Option String)
    (q : Payment) : (rejectUpd now admin pid reason q).id = q.id := by
  unfold rejectUpd
  split <;> rfl

theorem inv_submitPaymentFlat (now : Nat) (uid : String) (amt : Option Int)
    (tx : Option String) {db : DB} (h : Inv db) :
    Inv (submitPaymentFlat now uid amt tx db).2 := by
  obtain ⟨⟨hbound, hpair⟩, hpro⟩ := h
  unfold submitPaymentFlat
  split
  · exact ⟨⟨hbound, hpair⟩, hpro⟩
  split
  · exact ⟨⟨hbound, hpair⟩, hpro⟩
  split
  · exact ⟨⟨hbound, hpair⟩, hpro⟩
  split
  · exact ⟨⟨hbound, hpair⟩, hpro⟩
  refine ⟨⟨?_, ?_⟩, ?_⟩
  · intro p hp
    rcases List.mem_append.mp hp with hp | hp
    · exact Nat.lt_succ_of_lt (hbound p hp)
    · rcases List.mem_singleton.mp hp with rfl
      exact Nat.lt_succ_self _
  · refine List.pairwise_append.mpr ⟨hpair, List.pairwise_singleton _ _, ?_⟩
    intro a ha b hb
    rcases List.mem_singleton.mp hb with rfl
    exact Nat.ne_of_lt (hbound a ha)
  · intro u hu hup
    rcases hpro u hu hup with ⟨q, hq, hq1, hq2⟩
    exact ⟨q, List.mem_append_left _ hq, hq1, hq2⟩

theorem inv_approvePaymentFlat (now : Nat) (admin : String) (pid : Nat)
    {db : DB} (h : Inv db) : Inv (approvePaymentFlat now admin pid db).2 := by
  obtain ⟨⟨hbound, hpair⟩, hpro⟩ := h
  rcases hfind : db.payments.find? (fun p => decide (p.id = pid)) with _ | p
  · simp only [approvePaymentFlat, hfind]
    exact ⟨⟨hbound, hpair⟩, hpro⟩
  · have hpmem : p ∈ db.payments := List.mem_of_find?_eq_some hfind
    have hpid : p.id = pid := by
      have hdec := List.find?_some hfind
      simpa using hdec
    simp only [approvePaymentFlat, hfind]
    split
    · exact ⟨⟨hbound, hpair⟩, hpro⟩
    · split
      · exact ⟨⟨hbound, hpair⟩, hpro⟩
      · refine ⟨⟨?_, ?_⟩, ?_⟩
        · intro q' hq'
          rcases List.mem_map.mp hq' with ⟨q, hq, rfl⟩
          rw [approveUpd_id]
          exact hbound q hq
        · refine List.pairwise_map.mpr (hpair.imp ?_)
          intro a b hab
          rw [approveUpd_id, approveUpd_id]
          exact hab
        · intro u hu hup
          rcases mem_upsertPro hu with hcid | hmem
          · refine ⟨approveUpd now admin pid p,
              List.mem_map_of_mem _ hpmem, ?_, ?_⟩
            · rw [approveUpd_clerkUserId, hcid]
            · unfold approveUpd
              rw [if_pos hpid]
          · rcases hpro u hmem hup with ⟨q, hq, hq1, hq2⟩
            refine ⟨approveUpd now admin pid q,
              List.mem_map_of_mem _ hq, ?_, approveUpd_keeps_approved now admin pid hq2⟩
            rw [approveUpd_clerkUserId]
            exact hq1

theorem inv_rejectPaymentFlat (now : Nat) (admin : String) (pid : Nat)
    (reason : Option String) {db : DB} (h : Inv db) :
    Inv (rejectPaymentFlat now admin pid reason db).2 := by
  obtain ⟨⟨hbound, hpair⟩, hpro⟩ := h
  rcases hfind : db.payments.find? (fun p => decide (p.id = pid)) with _ | p
  · simp only [rejectPaymentFlat, hfind]
    split
    · exact ⟨⟨hbound, hpair⟩, hpro⟩
    · exact ⟨⟨hbound, hpair⟩, hpro⟩
  · have hpmem : p ∈ db.payments := List.mem_of_find?_eq_some hfind
    have hpid : p.id = pid := by
      have hdec := List.find?_some hfind
      simpa using hdec
    simp only [rejectPaymentFlat, hfind]
    split
    · exact ⟨⟨hbound, hpair⟩, hpro⟩
    · split
      · exact ⟨⟨hbound, hpair⟩, hpro⟩
      · split
        · exact ⟨⟨hbound, hpair⟩, hpro⟩
        · rename_i hnotpend
          have hppend : p.status = PayStatus.pending := not_not.mp hnotpend
          refine ⟨⟨?_, ?_⟩, ?_⟩
          · intro q' hq'
            rcases List.mem_map.mp hq' with ⟨q, hq, rfl⟩
            rw [rejectUpd_id]
            exact hbound q hq
          · refine List.pairwise_map.mpr (hpair.imp ?_)
            intro a b hab
            rw [rejectUpd_id, rejectUpd_id]
            exact hab
          · intro u hu hup
            rcases hpro u hu hup with ⟨q, hq, hq1, hq2⟩
            have hqid : q.id ≠ pid := by
              intro he
              have hqp : q = p :=
                payment_eq_of_id_eq hpair hq hpmem (he.trans hpid.symm)
              rw [hqp, hppend] at hq2
              cases hq2
            refine ⟨q, ?_, hq1, hq2⟩
            have hmm := List.mem_map_of_mem (rejectUpd now admin pid reason) hq
            unfold rejectUpd at hmm
            rwa [if_neg hqid] at hmm

theorem step_inv (op : Op) {db : DB} (h : Inv db) : Inv (step op db) := by
  cases op with
  | submitFlat now uid amt tx => exact inv_submitPaymentFlat now uid amt tx h
  | approveFlat now admin pid => exact inv_approvePaymentFlat now admin pid h
  | rejectFlat now admin pid reason => exact inv_rejectPaymentFlat now admin pid reason h
  | trialStart now uid =>
    show Inv (startTrial now uid db).2
    unfold startTrial
    split
    · exact h
    · exact inv_of_frame rfl rfl rfl h
  | trialSkip now uid =>
    show Inv (skipTrial now uid db)
    unfold skipTrial
    split
    · exact inv_of_frame rfl rfl rfl h
    · exact inv_of_frame rfl rfl rfl h
  | submitSub now uid planId amt method tx email name =>
    show Inv (submitPaymentSub now uid planId amt method tx email name db).2
    unfold submitPaymentSub
    split
    · exact h
    · split
      · exact h
      · split
        · exact h
        · exact inv_of_frame rfl rfl rfl h
  | approveSub now pid notes =>
    show Inv (approvePaymentSub now pid notes db).2
    unfold approvePaymentSub
    split
    · exact h
    · exact inv_of_frame rfl rfl rfl h
  | rejectSub now pid reason =>
    show Inv (rejectPaymentSub now pid reason db).2
    unfold rejectPaymentSub
    split
    · exact h
    · split
      · exact h
      · exact inv_of_frame rfl rfl rfl h
  | planCreate name descr price dur active =>
    show Inv (createPlan name descr price dur active db).2
    unfold createPlan
    split
    · exact h
    · exact inv_of_frame rfl rfl rfl h
  | subCancel now uid =>
    show Inv (cancelSubscription now uid db).2
    unfold cancelSubscription
    split
    · exact inv_of_frame rfl rfl rfl h
    · exact h

theorem runOps_inv (ops : List Op) {db : DB} (h : Inv db) : Inv (runOps ops db) := by
  induction ops generalizing db with
  | nil => exact h
  | cons o t ih => exact ih (step_inv o h)

/-- C1: for every user, whenever `isPro` is true in the entitlement
store, at least one payment with status approved exists for that user
or an active, unexpired subscription period exists for that user; the
invariant holds after every sequence of mutating operations
(submit, trial start, trial skip, approve, reject, in both flows)
from the fresh database — at any reading time `t`. -/
theorem c1_isPro_backed_by_entitlement (ops : List Op) (t : Nat) (u : UserRow)
    (hu : u ∈ (runOps ops emptyDB).users) (hpro : u.isPro = true) :
    (∃ p ∈ (runOps ops emptyDB).payments,
        p.clerkUserId = u.clerkUserId ∧ p.status = PayStatus.approved) ∨
    (∃ s ∈ (runOps ops emptyDB).subscriptions,
        s.userId = u.clerkUserId ∧ s.status = SubStatus.active ∧ t < s.endDate) :=
  Or.inl ((runOps_inv ops inv_emptyDB).2 u hu hpro)

/-- Witness for C1 at a concrete trace: after submit + approve the user
row is Pro and the disjunction holds. -/
theorem c1_isPro_backed_by_entitlement_witness :
    ({ clerkUserId := "u1", isPro := true, proSince := some 1 } : UserRow)
        ∈ (runOps c1demoOps emptyDB).users ∧
    ((∃ p ∈ (runOps c1demoOps emptyDB).payments,
        p.clerkUserId = "u1" ∧ p.status = PayStatus.approved) ∨
     (∃ s ∈ (runOps c1demoOps emptyDB).subscriptions,
        s.userId = "u1" ∧ s.status = SubStatus.active ∧ 5 < s.endDate)) :=
  ⟨by decide,
   c1_isPro_backed_by_entitlement c1demoOps 5
     { clerkUserId := "u1", isPro := true, proSince := some 1 } (by decide) rfl⟩

/-- C2 counterexample: the plan-based approval handler selects only
rows still pending, so invoking it on the already-approved payment 1
returns the not-found failure rather than an already-approved success,
and invoking it on the rejected payment 2 also returns not-found
rather than an invalid-state-transition failure. -/
theorem c2_counterexample_plan_approve_not_idempotent :
    approvePaymentSub 2 1 none c2db = (ApproveSubResp.notFoundPending, c2db) ∧
    approvePaymentSub 2 2 none c2db = (ApproveSubResp.notFoundPending, c2db) := by
  decide

/-- C2 (amended): the one-time approval handler re-invoked on an
already-approved payment returns the already-approved success and
mutates nothing, and on a rejected payment fails with the
invalid-state error, while the plan-based approval handler returns
not-found, mutating nothing, whenever no pending submission carries
the id. -/
theorem c2_approve_idempotency (now : Nat) (admin : String) (pid : Nat)
    (notes : Option String) (db : DB) (p : Payment)
    (hfind : db.payments.find? (fun q => decide (q.id = pid)) = some p) :
    (p.status = PayStatus.approved →
        approvePaymentFlat now admin pid db
          = (ApproveFlatResp.alreadyApproved p.clerkUserId, db)) ∧
    (p.status = PayStatus.rejected →
        approvePaymentFlat now admin pid db
          = (ApproveFlatResp.invalidStatus p.status, db)) ∧
    (findPendingSubmission db pid = none →
        approvePaymentSub now pid notes db = (ApproveSubResp.notFoundPending, db)) := by
  refine ⟨?_, ?_, ?_⟩
  · intro happ
    simp only [approvePaymentFlat, hfind]
    rw [if_pos happ]
  · intro hrej
    simp only [approvePaymentFlat, hfind]
    rw [if_neg (by rw [hrej]; exact PayStatus.noConfusion),
        if_pos (by rw [hrej]; exact fun he => PayStatus.noConfusion he)]
  · intro hnone
    simp only [approvePaymentSub, hnone]

/-- Witness for C2's amended statement at a concrete ledger. -/
theorem c2_approve_idempotency_witness :
    approvePaymentFlat 5 "a1" 1 c2wdb
      = (ApproveFlatResp.alreadyApproved "u1", c2wdb) ∧
    approvePaymentSub 5 1 none c2wdb = (ApproveSubResp.notFoundPending, c2wdb) := by
  have h := c2_approve_idempotency 5 "a1" 1 none c2wdb c2payApproved (by decide)
  exact ⟨h.1 rfl, h.2.2 rfl⟩

/-- C3 counterexample: the plan-based submission handler performs no
transaction-code uniqueness check, so two submissions carrying the
same external transaction code both insert, leaving two distinct rows
with equal transaction identifiers in the ledger. -/
theorem c3_counterexample_duplicate_transaction_inserted :
    ((submitPaymentSub 1 "u2" (some 1) (some 20000) (some "bank") (some "TX1")
        none none
        (submitPaymentSub 0 "u1" (some 1) (some 20000) (some "bank") (some "TX1")
          none none c3db0).2).2.submissions.map
      (fun s => s.transactionCode)) = ["TX1", "TX1"] := by
  decide

/-- C3 (amended): in the one-time flow, submitting a transaction id
already carried by any existing payment — whatever its status — fails
with the duplicate-transaction conflict and inserts no row; the
plan-based submission handler performs no such check and can insert
duplicates. -/
theorem c3_flat_duplicate_transaction (now : Nat) (uid : String) (amt : Int)
    (tx : String) (db : DB) (hamt : amt ≠ 0) (htx : tx ≠ "")
    (hpro : userIsProFlat db uid = false) (hpend : hasPendingFlat db uid = false)
    (hdup : txUsedFlat db tx = true) :
    submitPaymentFlat now uid (some amt) (some tx) db
      = (SubmitFlatResp.duplicateTransaction, db) := by
  simp [submitPaymentFlat, intFalsy, strFalsy, hamt, htx, hpro, hpend, hdup]

/-- Witness for C3's amended statement: a transaction id of a rejected
payment cannot be resubmitted. -/
theorem c3_flat_duplicate_transaction_witness :
    submitPaymentFlat 3 "u1" (some 20000) (some "TX1") c3wdb
      = (SubmitFlatResp.duplicateTransaction, c3wdb) :=
  c3_flat_duplicate_transaction 3 "u1" 20000 "TX1" c3wdb (by decide) (by decide)
    (by decide) (by decide) (by decide)

/-- C4 counterexample: the plan-based submission handler performs no
duplicate-pending check, so the same user submitting twice in a row
ends with two pending rows in the ledger, with no duplicate-pending
failure on the second call. -/
theorem c4_counterexample_two_pending_rows :
    ((submitPaymentSub 1 "u1" (some 1) (some 20000) (some "bank") (some "TXB")
        none none
        (submitPaymentSub 0 "u1" (some 1) (some 20000) (some "bank") (some "TXA")
          none none c4db0).2).2.submissions.map
      (fun s => (s.userId, s.status)))
      = [("u1", PayStatus.pending), ("u1", PayStatus.pending)] := by
  decide

/-- C4 (amended): in the one-time flow, a user who already holds a
pending payment fails with the duplicate-pending conflict and no row
is inserted; the plan-based submission handler performs no such check
and can accumulate several pending rows for one user. -/
theorem c4_flat_duplicate_pending (now : Nat) (uid : String) (amt : Int)
    (tx : String) (db : DB) (hamt : amt ≠ 0) (htx : tx ≠ "")
    (hpro : userIsProFlat db uid = false) (hpend : hasPendingFlat db uid = true) :
    submitPaymentFlat now uid (some amt) (some tx) db
      = (SubmitFlatResp.pendingExists, db) := by
  simp [submitPaymentFlat, intFalsy, strFalsy, hamt, htx, hpro, hpend]

/-- Witness for C4's amended statement at a concrete ledger. -/
theorem c4_flat_duplicate_pending_witness :
    submitPaymentFlat 3 "u1" (some 20000) (some "TX2") c4wdb
      = (SubmitFlatResp.pendingExists, c4wdb) :=
  c4_flat_duplicate_pending 3 "u1" 20000 "TX2" c4wdb (by decide) (by decide)
    (by decide) (by decide)

/-- C5: the plan-based approval runs three separate statements with no
wrapping transaction; when only the first write lands (the later
statements fail), the payment is already marked approved while no
subscription row was created and the user table is untouched — the
state is not left as it was before the call, so the operation is not
all-or-nothing.  The last conjunct checks that the full handler is
exactly the three-write sequence. -/
theorem c5_partial_approval_half_applied :
    ((approvePaymentSubUpto 10 1 none 1 c5db).submissions.map (fun s => s.status)
        = [PayStatus.approved]) ∧
    (approvePaymentSubUpto 10 1 none 1 c5db).subscriptions = [] ∧
    (approvePaymentSubUpto 10 1 none 1 c5db).users = [] ∧
    (approvePaymentSub 10 1 none c5db).2 = approvePaymentSubUpto 10 1 none 3 c5db := by
  decide

/-- C6: the admin gate of the `payment_submissions` admin router
hardcodes its admin flag to true, so a caller who does not carry the
admin role is admitted instead of failing with a forbidden error. -/
theorem c6_stub_gate_admits_non_admin : requireAdminStub false = true := by
  rfl

/-- C7: a plan-based submission whose amount differs from the selected
active plan's price fails with the amount-mismatch error and the state
is returned unchanged — no payment row is inserted; the comparison is
exact equality, with no tolerance. -/
theorem c7_amount_mismatch_no_insert (now : Nat) (uid : String) (planId : Nat)
    (amt : Int) (method tx : String) (db : DB) (pl : Plan)
    (hplan : planId ≠ 0) (hamt : amt ≠ 0) (hmethod : method ≠ "") (htx : tx ≠ "")
    (hfind : findActivePlan db planId = some pl) (hne : amt ≠ pl.price) :
    submitPaymentSub now uid (some planId) (some amt) (some method) (some tx)
        none none db
      = (SubmitSubResp.amountMismatch pl.price, db) := by
  simp [submitPaymentSub, natFalsy, intFalsy, strFalsy, hplan, hamt, hmethod,
        htx, hfind, hne]

/-- Witness for C7: 150.00 submitted against the 200.00 plan. -/
theorem c7_amount_mismatch_no_insert_witness :
    submitPaymentSub 0 "u1" (some 1) (some 15000) (some "bank") (some "TX7")
        none none c7db
      = (SubmitSubResp.amountMismatch 20000, c7db) :=
  c7_amount_mismatch_no_insert 0 "u1" 1 15000 "bank" "TX7" c7db premiumPlan
    (by decide) (by decide) (by decide) (by decide) (by decide) (by decide)

/-- C8: with an existing trial record (active or not) the trial start
fails as already used and creates nothing; with no record it creates
exactly one trial record starting now, ending in 7 days, active; so a
second sequential call fails as already used and exactly one matching
record remains. -/
theorem c8_startTrial_single_use (now later : Nat) (uid : String) (db : DB) :
    (hasTrial db uid = true →
        startTrial now uid db = (StartTrialResp.alreadyUsed, db)) ∧
    (hasTrial db uid = false →
        startTrial now uid db
          = (StartTrialResp.started (Trial.mk uid now (now + 7) true),
             { db with trials := db.trials ++ [Trial.mk uid now (now + 7) true] }) ∧
        startTrial later uid (startTrial now uid db).2
          = (StartTrialResp.alreadyUsed, (startTrial now uid db).2) ∧
        (startTrial now uid db).2.trials.filter (fun t => decide (t.userId = uid))
          = [Trial.mk uid now (now + 7) true]) := by
  constructor
  · intro h
    simp [startTrial, h]
  · intro h
    have hstep : startTrial now uid db
        = (StartTrialResp.started (Trial.mk uid now (now + 7) true),
           { db with trials := db.trials ++ [Trial.mk uid now (now + 7) true] }) := by
      simp [startTrial, h]
    have hafter : hasTrial (startTrial now uid db).2 uid = true := by
      rw [hstep]
      simp [hasTrial]
    refine ⟨hstep, ?_, ?_⟩
    · generalize hX : (startTrial now uid db).2 = X at hafter ⊢
      simp [startTrial, hafter]
    · rw [hstep]
      have hnone : ∀ t ∈ db.trials, ¬(decide (t.userId = uid) = true) := by
        intro t ht hdec
        have : db.trials.any (fun t => decide (t.userId = uid)) = true :=
          List.any_eq_true.mpr ⟨t, ht, hdec⟩
        rw [hasTrial] at h
        rw [h] at this
        cases this
      have hnil : db.trials.filter (fun t => decide (t.userId = uid)) = [] :=
        List.filter_eq_nil_iff.mpr hnone
      simp [List.filter_append, hnil]

/-- Witness for C8 from the empty store: the first call creates the
trial, the immediate second call fails as already used, one record. -/
theorem c8_startTrial_single_use_witness :
    startTrial 0 "u1" emptyDB
      = (StartTrialResp.started (Trial.mk "u1" 0 7 true),
         { emptyDB with trials := [Trial.mk "u1" 0 7 true] }) ∧
    startTrial 3 "u1" (startTrial 0 "u1" emptyDB).2
      = (StartTrialResp.alreadyUsed, (startTrial 0 "u1" emptyDB).2) ∧
    (startTrial 0 "u1" emptyDB).2.trials.filter (fun t => decide (t.userId = "u1"))
      = [Trial.mk "u1" 0 7 true] := by
  have h := (c8_startTrial_single_use 0 3 "u1" emptyDB).2 (by decide)
  exact ⟨h.1, h.2.1, h.2.2⟩

/-- C9: both rejection handlers demand a truthy reason and fail with
the validation error otherwise; no rejection call ever touches the
entitlement state (user Pro flags, subscriptions, trials); a
successful rejection rewrites exactly the matched payment row, setting
only status, rejection reason, reviewer and processing time. -/
theorem c9_reject_requires_reason_never_entitles (now : Nat) (admin : String)
    (pid : Nat) (reason : Option String) (db : DB) :
    (strFalsy reason = true →
        rejectPaymentFlat now admin pid reason db
          = (RejectFlatResp.missingReason, db) ∧
        rejectPaymentSub now pid reason db = (RejectSubResp.missingReason, db)) ∧
    (rejectPaymentFlat now admin pid reason db).2.users = db.users ∧
    (rejectPaymentFlat now admin pid reason db).2.subscriptions = db.subscriptions ∧
    (rejectPaymentFlat now admin pid reason db).2.trials = db.trials ∧
    (rejectPaymentSub now pid reason db).2.users = db.users ∧
    (rejectPaymentSub now pid reason db).2.subscriptions = db.subscriptions ∧
    (rejectPaymentSub now pid reason db).2.trials = db.trials ∧
    (∀ p, db.payments.find? (fun q => decide (q.id = pid)) = some p →
        p.status = PayStatus.pending → strFalsy reason = false →
        (rejectPaymentFlat now admin pid reason db).2.payments
          = db.payments.map (rejectUpd now admin pid reason)) ∧
    (findPendingSubmission db pid ≠ none → strFalsy reason = false →
        (rejectPaymentSub now pid reason db).2.submissions
          = db.submissions.map (rejectSubUpd now pid reason)) := by
  refine ⟨?_, ?_, ?_, ?_, ?_, ?_, ?_, ?_, ?_⟩
  · intro h
    constructor
    · simp [rejectPaymentFlat, h]
    · simp [rejectPaymentSub, h]
  · unfold rejectPaymentFlat
    repeat' split
    all_goals rfl
  · unfold rejectPaymentFlat
    repeat' split
    all_goals rfl
  · unfold rejectPaymentFlat
    repeat' split
    all_goals rfl
  · unfold rejectPaymentSub
    repeat' split
    all_goals rfl
  · unfold rejectPaymentSub
    repeat' split
    all_goals rfl
  · unfold rejectPaymentSub
    repeat' split
    all_goals rfl
  · intro p hfind hpend hreason
    simp only [rejectPaymentFlat, hreason, Bool.false_eq_true, if_false, hfind]
    rw [if_neg (by rw [hpend]; exact fun he => PayStatus.noConfusion he),
        if_neg (not_not_intro hpend)]
  · intro hne hreason
    rcases hfind : findPendingSubmission db pid with _ | s
    · exact absurd hfind hne
    · simp only [rejectPaymentSub, hreason, Bool.false_eq_true, if_false, hfind]

/-- Witness for C9 at a concrete ledger: a missing reason fails, a real
rejection rewrites only the payment rows and leaves entitlement
untouched. -/
theorem c9_reject_requires_reason_never_entitles_witness :
    rejectPaymentFlat 4 "a1" 1 none c9db = (RejectFlatResp.missingReason, c9db) ∧
    (rejectPaymentFlat 4 "a1" 1 (some "unverifiable") c9db).2.users = c9db.users ∧
    (rejectPaymentFlat 4 "a1" 1 (some "unverifiable") c9db).2.payments
      = c9db.payments.map (rejectUpd 4 "a1" 1 (some "unverifiable")) ∧
    (rejectPaymentSub 4 1 (some "unverifiable") c9db).2.submissions
      = c9db.submissions.map (rejectSubUpd 4 1 (some "unverifiable")) := by
  have h0 := c9_reject_requires_reason_never_entitles 4 "a1" 1 none c9db
  obtain ⟨hval, hfu, hfs, hft, hsu, hss, hst, hflat, hsub⟩ :=
    c9_reject_requires_reason_never_entitles 4 "a1" 1 (some "unverifiable") c9db
  exact ⟨(h0.1 rfl).1, hfu, hflat c9pay (by decide) (by decide) rfl,
         hsub (by decide) rfl⟩

/-- C10: approving a pending payment whose plan reference resolves to
no plan row still succeeds, reporting and storing an active
subscription ending 30 days from now with 30 days remaining. -/
theorem c10_dangling_plan_defaults_to_30_days (now : Nat) (pid : Nat)
    (notes : Option String) (db : DB) (s : Submission)
    (hfind : findPendingSubmission db pid = some s)
    (hplan : planById db s.planId = none) :
    (approvePaymentSub now pid notes db).1
      = ApproveSubResp.approvedOk s.userId (now + 30) ∧
    (approvePaymentSub now pid notes db).2.subscriptions
      = db.subscriptions.map (deactivateUpd s.userId)
        ++ [Subscription.mk db.nextSubscriptionId s.userId s.planId
              SubStatus.active now (now + 30) 30] := by
  have hdur : planDurationOr30 db s.planId = 30 := by
    simp [planDurationOr30, hplan]
  constructor
  · simp [approvePaymentSub, hfind, hdur]
  · simp [approvePaymentSub, hfind, hdur, approveSubW1, approveSubW2, approveSubW3]

/-- Witness for C10: submission 1 references plan 99, no plans exist,
yet approval succeeds and grants 30 days. -/
theorem c10_dangling_plan_defaults_to_30_days_witness :
    (approvePaymentSub 0 1 none c10db).1 = ApproveSubResp.approvedOk "u1" 30 ∧
    (approvePaymentSub 0 1 none c10db).2.subscriptions
      = [Subscription.mk 1 "u1" (some 99) SubStatus.active 0 30 30] := by
  have h := c10_dangling_plan_defaults_to_30_days 0 1 none c10db c10subPending
    (by decide) (by decide)
  exact ⟨h.1, h.2⟩

end YunoB
